import Mathlib

/-!
Shallow embedding of the order/payment core of the garments backend
(`orderService`, `razorpayService` and the surrounding data model), together
with theorems settling the spec claims about it.  Monetary values are modelled
as rationals, JavaScript truthiness on numeric/string fields is made explicit
(zero and the empty string are falsy), and the database is explicit state
threaded through each operation.
-/

deriving instance DecidableEq for Except

namespace Garments

/-- Product lifecycle status; the pricing engine only distinguishes ACTIVE. -/
inductive ProductStatus
  | ACTIVE
  | INACTIVE
  | DISCONTINUED
deriving DecidableEq, Repr

/-- Coupon discount type. -/
inductive DiscountType
  | PERCENTAGE
  | FIXED
deriving DecidableEq, Repr

/-- Order lifecycle status values. -/
inductive OrderStatus
  | PENDING
  | CONFIRMED
  | PROCESSING
  | SHIPPED
  | DELIVERED
  | CANCELLED
  | REFUNDED
deriving DecidableEq, Repr

/-- Payment status values. -/
inductive PaymentStatus
  | PENDING
  | PAID
  | FAILED
  | REFUNDED
deriving DecidableEq, Repr

/-- Catalog product row, restricted to the fields the pricing engine selects. -/
structure Product where
  id : String
  normalPrice : ℚ
  offerPrice : Option ℚ
  wholesalePrice : Option ℚ
  status : ProductStatus
deriving DecidableEq, Repr

/-- Coupon row. -/
structure Coupon where
  id : String
  code : String
  isActive : Bool
  validFrom : Int
  validUntil : Int
  discountType : DiscountType
  discountValue : ℚ
  minOrderAmount : Option ℚ
  maxDiscount : Option ℚ
  usageLimit : Option Nat
  usedCount : Nat
deriving DecidableEq, Repr

/-- A cart line as sent by the client. -/
structure CartItem where
  productId : String
  productVariantId : Option String
  quantity : Nat
deriving DecidableEq, Repr

/-- A persisted order line with the price frozen at creation time. -/
structure OrderItem where
  productId : String
  productVariantId : Option String
  quantity : Nat
  price : ℚ
deriving DecidableEq, Repr

/-- Shipping snapshot captured on the order row. -/
structure ShippingInfo where
  name : String
  email : String
  phone : String
  address : String
  city : String
  state : String
  pincode : String
deriving DecidableEq, Repr

/-- The order aggregate root, with the gateway correlation fields of both
payment gateways. -/
structure Order where
  id : String
  orderNumber : String
  userId : String
  shipping : ShippingInfo
  status : OrderStatus
  paymentStatus : PaymentStatus
  paymentMethod : String
  subtotal : ℚ
  discount : ℚ
  shippingCost : ℚ
  totalAmount : ℚ
  couponId : Option String
  items : List OrderItem
  razorpayOrderId : Option String
  razorpayPaymentId : Option String
  razorpaySignature : Option String
  phonepeMerchantTransactionId : Option String
  phonepeTransactionId : Option String
  phonepeResponseCode : Option String
  phonepeResponseMessage : Option String
  adminNotes : Option String
  trackingNumber : Option String
  carrier : Option String
  trackingUrl : Option String
  estimatedDelivery : Option Int
  shippedAt : Option Int
  deliveredAt : Option Int
deriving DecidableEq, Repr

/-- Append-only tracking history entry. -/
structure TrackingEntry where
  orderId : String
  status : OrderStatus
  description : String
  location : String
deriving DecidableEq, Repr

/-- The persistent state read and written by the order service: catalog
products, variant stock levels, coupons, orders and tracking history. -/
structure DB where
  products : String → Option Product
  stocks : String → Option Int
  coupons : List Coupon
  orders : List Order
  tracking : List TrackingEntry

/-- Pricing-time failures raised by `calculateOrderTotals`. -/
inductive PricingError
  | emptyItems
  | invalidItem (productId : String)
  | productNotFound (productId : String)
  | productUnavailable (productId : String)
  | variantNotFound (variantId : String)
  | insufficientStock (variantId : String) (available : Int) (requested : Nat)
deriving DecidableEq, Repr

/-- Unit price resolution from the source, `product.offerPrice ||
product.normalPrice`: a missing offerPrice falls back to normalPrice, and so
does an offerPrice of zero, because zero is falsy in JavaScript. -/
def unitPrice (p : Product) : ℚ :=
  match p.offerPrice with
  | some v => if v = 0 then p.normalPrice else v
  | none => p.normalPrice

/-- Rounding to two decimal places, `parseFloat(x.toFixed(2))`, with halves
rounded up. -/
def round2 (q : ℚ) : ℚ := ((q * 100 + 1 / 2).floor : ℤ) / 100

/-- The per-line checks of `calculateOrderTotals`: item shape validation,
product lookup, ACTIVE status check, then variant stock check when a variant
id is supplied; on success the line contributes `unitPrice * quantity`. -/
def lineAmount (db : DB) (item : CartItem) : Except PricingError ℚ :=
  if item.productId = "" ∨ item.quantity = 0 then
    .error (.invalidItem item.productId)
  else
    match db.products item.productId with
    | none => .error (.productNotFound item.productId)
    | some p =>
      if p.status ≠ .ACTIVE then
        .error (.productUnavailable item.productId)
      else
        match item.productVariantId with
        | none => .ok (unitPrice p * item.quantity)
        | some vid =>
          match db.stocks vid with
          | none => .error (.variantNotFound vid)
          | some stock =>
            if stock < (item.quantity : Int) then
              .error (.insufficientStock vid stock item.quantity)
            else
              .ok (unitPrice p * item.quantity)

/-- The subtotal accumulation loop: lines are processed left to right and the
first failing line aborts the whole computation. -/
def computeSubtotal (db : DB) : List CartItem → Except PricingError ℚ
  | [] => .ok 0
  | item :: rest =>
    match lineAmount db item with
    | .error e => .error e
    | .ok a =>
      match computeSubtotal db rest with
      | .error e => .error e
      | .ok s => .ok (a + s)

/-- The coupon `findFirst` filter: matching code, active, inside the validity
window, and usage limit either absent or strictly above the used count. -/
def couponMatches (now : Int) (code : String) (c : Coupon) : Bool :=
  c.code == code && c.isActive && decide (c.validFrom ≤ now) &&
    decide (now ≤ c.validUntil) &&
    (match c.usageLimit with
     | none => true
     | some l => decide (c.usedCount < l))

/-- Coupon resolution by code against the coupon store. -/
def resolveCoupon (coupons : List Coupon) (now : Int) (code : String) :
    Option Coupon :=
  coupons.find? (couponMatches now code)

/-- Discount computation for a resolved coupon.  The threshold uses
`coupon.minOrderAmount || 0`; the percentage cap is applied only when
`coupon.maxDiscount` is truthy, so a cap of zero is ignored. -/
def couponDiscount (c : Coupon) (subtotal : ℚ) : ℚ :=
  if c.minOrderAmount.getD 0 ≤ subtotal then
    match c.discountType with
    | .PERCENTAGE =>
      let d := subtotal * c.discountValue / 100
      match c.maxDiscount with
      | some m => if m ≠ 0 ∧ m < d then m else d
      | none => d
    | .FIXED => c.discountValue
  else 0

/-- Discount and resolved coupon for an optional client coupon code; an empty
code is falsy and skips resolution, an unmatched code yields no discount. -/
def rawDiscount (coupons : List Coupon) (now : Int) :
    Option String → ℚ → ℚ × Option Coupon
  | none, _ => (0, none)
  | some code, subtotal =>
    if code = "" then (0, none)
    else
      match resolveCoupon coupons now code with
      | none => (0, none)
      | some c => (couponDiscount c subtotal, some c)

/-- The quote returned by the pricing engine. -/
structure OrderTotals where
  subtotal : ℚ
  discount : ℚ
  shippingCost : ℚ
  totalAmount : ℚ
  coupon : Option Coupon
deriving DecidableEq, Repr

/-- The pricing engine `calculateOrderTotals`: validates the cart, accumulates
the subtotal, resolves an optional coupon, applies the flat free-shipping
policy and returns all four monetary fields rounded to two decimals. -/
def calculateOrderTotals (db : DB) (now : Int) (orderItems : List CartItem)
    (couponCode : Option String) : Except PricingError OrderTotals :=
  if orderItems.isEmpty then .error .emptyItems
  else
    match computeSubtotal db orderItems with
    | .error e => .error e
    | .ok subtotal =>
      let dc := rawDiscount db.coupons now couponCode subtotal
      let shippingCost : ℚ := 0
      .ok { subtotal := round2 subtotal
            discount := round2 dc.1
            shippingCost := round2 shippingCost
            totalAmount := round2 (subtotal - dc.1 + shippingCost)
            coupon := dc.2 }

/-- The per-line value after a successful availability check: the resolved
unit price times the quantity (zero default for the unreachable missing
product case, which `lineAmount` has already excluded). -/
def lineValue (db : DB) (i : CartItem) : ℚ :=
  match db.products i.productId with
  | some p => unitPrice p * i.quantity
  | none => 0

/-- Sum of per-line values over a cart. -/
def cartSum (db : DB) (items : List CartItem) : ℚ :=
  (items.map (lineValue db)).sum

/-- Modelled from the spec's wording for claim comparison: unit price is "the
product's offerPrice if present else its normalPrice", with no zero check. -/
def specUnitPrice (p : Product) : ℚ := p.offerPrice.getD p.normalPrice

/-- Modelled from the spec's wording for claim comparison: a percentage
discount is "capped at maxDiscount when maxDiscount is set", with no
truthiness escape for a zero cap. -/
def specCouponDiscount (c : Coupon) (subtotal : ℚ) : ℚ :=
  if c.minOrderAmount.getD 0 ≤ subtotal then
    match c.discountType with
    | .PERCENTAGE =>
      let d := subtotal * c.discountValue / 100
      match c.maxDiscount with
      | some m => min d m
      | none => d
    | .FIXED => c.discountValue
  else 0

/-- Errors raised by the order service and the synchronous gateway adapter. -/
inductive OrderError
  | validationError (msg : String)
  | pricing (e : PricingError)
  | paymentVerificationFailed
  | customAssetUploadFailed
  | orderNotFound
  | invalidStatus (s : String)
  | notPaid
  | alreadyRefunded
  | missingOriginalTransactionId
  | gatewayRefundFailed (msg : String)
deriving DecidableEq, Repr

/-- Whether an `Except` result is a success. -/
def exceptIsOk {ε α : Type} : Except ε α → Bool
  | .ok _ => true
  | .error _ => false

/-- RazorpayService.verifyPayment: recompute the hex HMAC-SHA256 of
`orderId|paymentId` under the shared secret and compare to the supplied
signature.  The HMAC itself is an external crypto primitive, taken as a
function parameter. -/
def verifyPayment (hmacHex : String → String → String) (secret : String)
    (orderId paymentId signature : String) : Bool :=
  hmacHex secret (orderId ++ "|" ++ paymentId) == signature

/-- Byte-by-byte equality on character lists that always consumes both lists
before combining the per-position results, the comparison discipline of a
constant-time equality check. -/
def ctEqList : List Char → List Char → Bool
  | [], [] => true
  | a :: as, b :: bs => ctEqList as bs && (a == b)
  | _ :: _, [] => false
  | [], _ :: _ => false

/-- Constant-time-style string comparison over the underlying characters. -/
def ctEq (s t : String) : Bool := ctEqList s.data t.data

/-- Point update of the stock map at one variant id. -/
def updateStock (stocks : String → Option Int) (vid : String) (f : Int → Int) :
    String → Option Int :=
  fun x => if x = vid then (stocks vid).map f else stocks x

/-- Stock decrement loop over the persisted order items: every item carrying a
variant id decrements that variant's stock by its quantity. -/
def decrementStocks (stocks : String → Option Int) (items : List OrderItem) :
    String → Option Int :=
  items.foldl
    (fun s item =>
      match item.productVariantId with
      | some vid => updateStock s vid (fun st => st - (item.quantity : Int))
      | none => s)
    stocks

/-- One step of the refund stock-restore loop. -/
def restoreStep (s : String → Option Int) (item : OrderItem) : String → Option Int :=
  match item.productVariantId with
  | some vid => updateStock s vid (fun st => st + (item.quantity : Int))
  | none => s

/-- Stock restore loop used by `processRefund`, the inverse of
`decrementStocks`. -/
def incrementStocks (stocks : String → Option Int) (items : List OrderItem) :
    String → Option Int :=
  items.foldl restoreStep stocks

/-- Increment a coupon's usedCount by id. -/
def incCouponUsage (coupons : List Coupon) (cid : String) : List Coupon :=
  coupons.map (fun c => if c.id = cid then { c with usedCount := c.usedCount + 1 } else c)

/-- Update the order with the given id in place. -/
def updateOrderIn (orders : List Order) (oid : String) (f : Order → Order) :
    List Order :=
  orders.map (fun o => if o.id = oid then f o else o)

/-- The price snapshot taken when persisting an order item: re-read the
product and apply `offerPrice || normalPrice`.  The missing-product default is
unreachable because `calculateOrderTotals` has already validated every line. -/
def snapshotItem (db : DB) (item : CartItem) : OrderItem :=
  { productId := item.productId
    productVariantId := item.productVariantId
    quantity := item.quantity
    price :=
      match db.products item.productId with
      | some p => unitPrice p
      | none => 0 }

/-- Human-readable status descriptions used for tracking history entries. -/
def getStatusDescription : OrderStatus → String
  | .PENDING => "Order has been placed and is awaiting confirmation"
  | .CONFIRMED => "Order has been confirmed and is being processed"
  | .PROCESSING => "Order is being prepared for shipment"
  | .SHIPPED => "Order has been shipped"
  | .DELIVERED => "Order has been delivered successfully"
  | .CANCELLED => "Order has been cancelled"
  | .REFUNDED => "Order has been refunded"

/-- The client payload round-tripped from the quote step: shipping info, cart,
optional coupon code, attached custom images, and the quoted totals the client
echoes back (`tempOrderData.totals`), which the verify step must not trust. -/
structure OrderPayload where
  userId : String
  shipping : ShippingInfo
  orderItems : List CartItem
  couponCode : Option String
  customImages : List String
  clientTotals : Option OrderTotals
deriving DecidableEq, Repr

/-- The verify-and-create input: the three Razorpay correlation values plus
the round-tripped order payload. -/
structure PaymentData where
  razorpayOrderId : String
  razorpayPaymentId : String
  razorpaySignature : String
  orderData : OrderPayload
deriving DecidableEq, Repr

/-- OrderService.verifyAndCreateOrder: verify the signature, recompute the
totals from the catalog, upload custom images, then atomically create the
order row (CONFIRMED / PAID) with its items, decrement variant stock,
increment coupon usage and append the confirmation tracking entry.  `uploadOk`
abstracts the external asset-upload outcome; `newId` and `newOrderNumber`
abstract the generated identifiers. -/
def verifyAndCreateOrder (hmacHex : String → String → String) (secret : String)
    (db : DB) (now : Int) (newId newOrderNumber : String) (uploadOk : Bool)
    (pd : PaymentData) : DB × Except OrderError Order :=
  if !(verifyPayment hmacHex secret pd.razorpayOrderId pd.razorpayPaymentId
      pd.razorpaySignature) then
    (db, .error .paymentVerificationFailed)
  else
    match calculateOrderTotals db now pd.orderData.orderItems pd.orderData.couponCode with
    | .error e => (db, .error (.pricing e))
    | .ok totals =>
      if pd.orderData.customImages ≠ [] ∧ uploadOk = false then
        (db, .error .customAssetUploadFailed)
      else
        let order : Order :=
          { id := newId
            orderNumber := newOrderNumber
            userId := pd.orderData.userId
            shipping := pd.orderData.shipping
            status := .CONFIRMED
            paymentStatus := .PAID
            paymentMethod := "ONLINE"
            subtotal := totals.subtotal
            discount := totals.discount
            shippingCost := totals.shippingCost
            totalAmount := totals.totalAmount
            couponId := totals.coupon.map Coupon.id
            items := pd.orderData.orderItems.map (snapshotItem db)
            razorpayOrderId := some pd.razorpayOrderId
            razorpayPaymentId := some pd.razorpayPaymentId
            razorpaySignature := some pd.razorpaySignature
            phonepeMerchantTransactionId := none
            phonepeTransactionId := none
            phonepeResponseCode := none
            phonepeResponseMessage := none
            adminNotes := none
            trackingNumber := none
            carrier := none
            trackingUrl := none
            estimatedDelivery := none
            shippedAt := none
            deliveredAt := none }
        let stocks2 := decrementStocks db.stocks order.items
        let coupons2 :=
          match totals.coupon with
          | some c => incCouponUsage db.coupons c.id
          | none => db.coupons
        let entry : TrackingEntry :=
          { orderId := newId
            status := .CONFIRMED
            description := "Order confirmed and payment received"
            location := order.shipping.city ++ ", " ++ order.shipping.state }
        ({ db with
            orders := db.orders ++ [order]
            stocks := stocks2
            coupons := coupons2
            tracking := db.tracking ++ [entry] },
         .ok order)

/-- OrderService.createCODOrder: validate the shipping fields, price the cart,
upload custom images, persist the order as CONFIRMED / PENDING / COD, then
decrement stock, increment coupon usage and append the COD tracking entry. -/
def createCODOrder (db : DB) (now : Int) (newId newOrderNumber : String)
    (uploadOk : Bool) (payload : OrderPayload) : DB × Except OrderError Order :=
  if payload.shipping.name = "" ∨ payload.shipping.email = "" ∨
      payload.shipping.phone = "" ∨ payload.shipping.address = "" ∨
      payload.shipping.city = "" ∨ payload.shipping.state = "" ∨
      payload.shipping.pincode = "" then
    (db, .error (.validationError "All shipping information fields are required"))
  else
    match calculateOrderTotals db now payload.orderItems payload.couponCode with
    | .error e => (db, .error (.pricing e))
    | .ok totals =>
      if payload.customImages ≠ [] ∧ uploadOk = false then
        (db, .error .customAssetUploadFailed)
      else
        let order : Order :=
          { id := newId
            orderNumber := newOrderNumber
            userId := payload.userId
            shipping := payload.shipping
            status := .CONFIRMED
            paymentStatus := .PENDING
            paymentMethod := "COD"
            subtotal := totals.subtotal
            discount := totals.discount
            shippingCost := totals.shippingCost
            totalAmount := totals.totalAmount
            couponId := totals.coupon.map Coupon.id
            items := payload.orderItems.map (snapshotItem db)
            razorpayOrderId := none
            razorpayPaymentId := none
            razorpaySignature := none
            phonepeMerchantTransactionId := none
            phonepeTransactionId := none
            phonepeResponseCode := none
            phonepeResponseMessage := none
            adminNotes := none
            trackingNumber := none
            carrier := none
            trackingUrl := none
            estimatedDelivery := none
            shippedAt := none
            deliveredAt := none }
        let stocks2 := decrementStocks db.stocks order.items
        let coupons2 :=
          match totals.coupon with
          | some c => incCouponUsage db.coupons c.id
          | none => db.coupons
        let entry : TrackingEntry :=
          { orderId := newId
            status := .CONFIRMED
            description := "COD order confirmed"
            location := order.shipping.city ++ ", " ++ order.shipping.state }
        ({ db with
            orders := db.orders ++ [order]
            stocks := stocks2
            coupons := coupons2
            tracking := db.tracking ++ [entry] },
         .ok order)

/-- The webhook body fields used by the callback handler. -/
structure CallbackData where
  merchantTransactionId : String
  transactionId : String
  code : String
  message : String
deriving DecidableEq, Repr

/-- The authoritative status re-fetched from the gateway's status-check
endpoint, an external response taken as a parameter. -/
structure StatusResponse where
  success : Bool
  code : String
  message : String
deriving DecidableEq, Repr

/-- OrderService.handlePhonePeCallback: re-verify the status with the gateway,
load the order by merchant-transaction id, then branch on the verified code.
PAYMENT_SUCCESS marks the order PAID / CONFIRMED, decrements stock for every
item with a variant and increments the coupon's usage; PAYMENT_ERROR and
PAYMENT_FAILED mark the payment FAILED; any other code records the response
fields only.  A tracking entry is appended only when the order status actually
changed.  Note that the success branch performs its stock and coupon mutations
unconditionally, with no check of the order's current paymentStatus. -/
def handlePhonePeCallback (db : DB) (statusResponse : StatusResponse)
    (cb : CallbackData) : DB × Except OrderError Order :=
  match db.orders.find?
      (fun o => o.phonepeMerchantTransactionId == some cb.merchantTransactionId) with
  | none => (db, .error .orderNotFound)
  | some order =>
    if statusResponse.success = true ∧ statusResponse.code = "PAYMENT_SUCCESS" then
      let upd : Order → Order := fun o =>
        { o with
            paymentStatus := .PAID
            status := .CONFIRMED
            phonepeTransactionId := some cb.transactionId
            phonepeResponseCode := some cb.code
            phonepeResponseMessage := some cb.message }
      let newOrderStatus := OrderStatus.CONFIRMED
      let stocks2 := decrementStocks db.stocks order.items
      let coupons2 :=
        match order.couponId with
        | some cid => incCouponUsage db.coupons cid
        | none => db.coupons
      let tracking2 :=
        if newOrderStatus ≠ order.status then
          db.tracking ++
            [{ orderId := order.id
               status := newOrderStatus
               description := getStatusDescription newOrderStatus
               location := order.shipping.city ++ ", " ++ order.shipping.state }]
        else db.tracking
      ({ db with
          orders := updateOrderIn db.orders order.id upd
          stocks := stocks2
          coupons := coupons2
          tracking := tracking2 },
       .ok (upd order))
    else if statusResponse.code = "PAYMENT_ERROR" ∨ statusResponse.code = "PAYMENT_FAILED" then
      let upd : Order → Order := fun o =>
        { o with
            paymentStatus := .FAILED
            phonepeResponseCode := some cb.code
            phonepeResponseMessage :=
              some (if cb.message = "" then statusResponse.message else cb.message) }
      ({ db with orders := updateOrderIn db.orders order.id upd }, .ok (upd order))
    else
      let upd : Order → Order := fun o =>
        { o with
            phonepeResponseCode := some cb.code
            phonepeResponseMessage :=
              some (if cb.message = "" then statusResponse.message else cb.message) }
      ({ db with orders := updateOrderIn db.orders order.id upd }, .ok (upd order))

/-- The admin status strings accepted by `updateOrderStatus`. -/
def parseStatus : String → Option OrderStatus
  | "PENDING" => some .PENDING
  | "CONFIRMED" => some .CONFIRMED
  | "PROCESSING" => some .PROCESSING
  | "SHIPPED" => some .SHIPPED
  | "DELIVERED" => some .DELIVERED
  | "CANCELLED" => some .CANCELLED
  | "REFUNDED" => some .REFUNDED
  | _ => none

/-- OrderService.updateOrderStatus: the only validation is that the requested
status is one of the seven values; the new status is then applied whatever the
current status is, SHIPPED and DELIVERED stamp their timestamps on first
entry, and a tracking entry is appended when the status actually changed. -/
def updateOrderStatus (db : DB) (now : Int) (orderId : String) (status : String)
    (adminNotes : Option String) : DB × Except OrderError Order :=
  match db.orders.find? (fun o => o.id == orderId) with
  | none => (db, .error .orderNotFound)
  | some order =>
    match parseStatus status with
    | none => (db, .error (.invalidStatus status))
    | some st =>
      let upd : Order → Order := fun o =>
        { o with
            status := st
            adminNotes :=
              match adminNotes with
              | some n => if n = "" then o.adminNotes else some n
              | none => o.adminNotes
            shippedAt :=
              if st = .SHIPPED ∧ order.status ≠ .SHIPPED then some now else o.shippedAt
            deliveredAt :=
              if st = .DELIVERED ∧ order.status ≠ .DELIVERED then some now
              else o.deliveredAt }
      let tracking2 :=
        if st ≠ order.status then
          db.tracking ++
            [{ orderId := order.id
               status := st
               description := getStatusDescription st
               location := order.shipping.city ++ ", " ++ order.shipping.state }]
        else db.tracking
      ({ db with orders := updateOrderIn db.orders order.id upd, tracking := tracking2 },
       .ok (upd order))

/-- OrderService.updateTrackingInfo: stores the carrier fields and
unconditionally moves the order to SHIPPED, stamping shippedAt and always
appending a SHIPPED tracking entry. -/
def updateTrackingInfo (db : DB) (now : Int) (orderId : String)
    (trackingNumber carrier trackingUrl : String) (estimatedDelivery : Option Int) :
    DB × Except OrderError Order :=
  match db.orders.find? (fun o => o.id == orderId) with
  | none => (db, .error .orderNotFound)
  | some order =>
    let upd : Order → Order := fun o =>
      { o with
          trackingNumber := some trackingNumber
          carrier := some carrier
          trackingUrl := some trackingUrl
          estimatedDelivery := estimatedDelivery
          status := .SHIPPED
          shippedAt := some now }
    let entry : TrackingEntry :=
      { orderId := order.id
        status := .SHIPPED
        description := "Order shipped via " ++ carrier ++ ". Tracking number: " ++ trackingNumber
        location := order.shipping.city ++ ", " ++ order.shipping.state }
    ({ db with
        orders := updateOrderIn db.orders order.id upd
        tracking := db.tracking ++ [entry] },
     .ok (upd order))

/-- Refund request fields. -/
structure RefundData where
  refundAmount : Option ℚ
  reason : String
  adminNotes : Option String
deriving DecidableEq, Repr

/-- The external gateway's response to a refund call, taken as a parameter. -/
structure RefundResponse where
  success : Bool
  merchantRefundId : String
  message : String
deriving DecidableEq, Repr

/-- One observable refund call to the asynchronous gateway. -/
structure GatewayCall where
  originalTransactionId : String
  amount : ℚ
  idempotencyKey : String
deriving DecidableEq, Repr

/-- The amount actually refunded, `refundAmount || order.totalAmount`: a
missing or zero requested amount falls back to the order total. -/
def refundedAmount (rd : RefundData) (o : Order) : ℚ :=
  match rd.refundAmount with
  | some a => if a = 0 then o.totalAmount else a
  | none => o.totalAmount

/-- OrderService.processRefund: load the order, require paymentStatus PAID,
status not already REFUNDED and a stored PhonePe transaction id, then call the
gateway refund.  On gateway success the order becomes REFUNDED / REFUNDED, a
tracking entry is appended and each item's variant stock is restored; coupon
usage is never touched.  The second component lists the gateway calls made. -/
def processRefund (db : DB) (orderId : String) (rd : RefundData)
    (gw : RefundResponse) : DB × List GatewayCall × Except OrderError String :=
  match db.orders.find? (fun o => o.id == orderId) with
  | none => (db, [], .error .orderNotFound)
  | some order =>
    if order.paymentStatus ≠ .PAID then (db, [], .error .notPaid)
    else if order.status = .REFUNDED then (db, [], .error .alreadyRefunded)
    else
      match order.phonepeTransactionId with
      | none => (db, [], .error .missingOriginalTransactionId)
      | some txn =>
        let call : GatewayCall :=
          { originalTransactionId := txn
            amount := refundedAmount rd order
            idempotencyKey := "REFUND_" ++ order.id }
        if gw.success = true then
          let upd : Order → Order := fun o =>
            { o with
                status := .REFUNDED
                paymentStatus := .REFUNDED
                adminNotes :=
                  match rd.adminNotes with
                  | some n => if n = "" then o.adminNotes else some n
                  | none => o.adminNotes }
          let entry : TrackingEntry :=
            { orderId := order.id
              status := .REFUNDED
              description :=
                "Order refunded. Amount: " ++ toString (refundedAmount rd order) ++
                  ". Reason: " ++ rd.reason ++ ". Refund ID: " ++ gw.merchantRefundId
              location := "System" }
          ({ db with
              orders := updateOrderIn db.orders order.id upd
              tracking := db.tracking ++ [entry]
              stocks := incrementStocks db.stocks order.items },
           [call], .ok gw.merchantRefundId)
        else
          (db, [call], .error (.gatewayRefundFailed gw.message))

/-- The error cases the spec groups under RefundNotEligible. -/
def isRefundNotEligible : OrderError → Bool
  | .notPaid => true
  | .alreadyRefunded => true
  | .missingOriginalTransactionId => true
  | _ => false

/-- Total quantity a refund restores for one variant id over the order's
items. -/
def restoreQty (items : List OrderItem) (vid : String) : Int :=
  ((items.filter (fun i => i.productVariantId == some vid)).map
    (fun i => (i.quantity : Int))).sum

theorem rat_floor_eq (q : ℚ) : q.floor = ⌊q⌋ := rfl

theorem round2_eq_round (q : ℚ) : round2 q = (round (q * 100) : ℤ) / 100 := by
  rw [round2, round_eq]
  norm_num
  rfl

theorem round2_zero : round2 0 = 0 := by
  unfold round2
  rw [rat_floor_eq]
  norm_num

theorem lineAmount_ok_val (db : DB) (i : CartItem) (v : ℚ)
    (h : lineAmount db i = .ok v) : v = lineValue db i := by
  unfold lineAmount at h
  split at h
  · exact absurd h (by simp)
  · cases hp : db.products i.productId with
    | none => simp only [hp] at h; exact absurd h (by simp)
    | some p =>
      simp only [hp] at h
      split at h
      · exact absurd h (by simp)
      · cases hv : i.productVariantId with
        | none =>
          simp only [hv] at h
          simp only [Except.ok.injEq] at h
          simp [lineValue, hp, ← h]
        | some vid =>
          simp only [hv] at h
          cases hs : db.stocks vid with
          | none => simp only [hs] at h; exact absurd h (by simp)
          | some stock =>
            simp only [hs] at h
            split at h
            · exact absurd h (by simp)
            · simp only [Except.ok.injEq] at h
              simp [lineValue, hp, ← h]

theorem lineAmount_of_isOk (db : DB) (i : CartItem)
    (h : exceptIsOk (lineAmount db i) = true) :
    lineAmount db i = .ok (lineValue db i) := by
  cases hl : lineAmount db i with
  | error e => rw [hl] at h; simp [exceptIsOk] at h
  | ok v => rw [← lineAmount_ok_val db i v hl]

theorem computeSubtotal_ok (db : DB) :
    ∀ items : List CartItem,
      (∀ i ∈ items, exceptIsOk (lineAmount db i) = true) →
      computeSubtotal db items = .ok (cartSum db items)
  | [], _ => by simp [computeSubtotal, cartSum]
  | item :: rest, h => by
    have h1 := lineAmount_of_isOk db item (h item (by simp))
    have h2 := computeSubtotal_ok db rest (fun i hi => h i (by simp [hi]))
    simp [computeSubtotal, h1, h2, cartSum]

theorem computeSubtotal_err (db : DB) (item : CartItem) (e : PricingError)
    (hbad : lineAmount db item = .error e) :
    ∀ (pre rest : List CartItem),
      (∀ i ∈ pre, exceptIsOk (lineAmount db i) = true) →
      computeSubtotal db (pre ++ item :: rest) = .error e
  | [], rest, _ => by simp [computeSubtotal, hbad]
  | p :: pre, rest, h => by
    have h1 := lineAmount_of_isOk db p (h p (by simp))
    have h2 := computeSubtotal_err db item e hbad pre rest (fun i hi => h i (by simp [hi]))
    simp [computeSubtotal, h1, h2]

theorem calculateOrderTotals_ok (db : DB) (now : Int) (items : List CartItem)
    (couponCode : Option String) (hne : items ≠ [])
    (hok : ∀ i ∈ items, exceptIsOk (lineAmount db i) = true) :
    calculateOrderTotals db now items couponCode =
      .ok { subtotal := round2 (cartSum db items)
            discount := round2 (rawDiscount db.coupons now couponCode (cartSum db items)).1
            shippingCost := round2 0
            totalAmount :=
              round2 (cartSum db items -
                (rawDiscount db.coupons now couponCode (cartSum db items)).1 + 0)
            coupon := (rawDiscount db.coupons now couponCode (cartSum db items)).2 } := by
  unfold calculateOrderTotals
  rw [computeSubtotal_ok db items hok]
  have : items.isEmpty = false := by
    cases items with
    | nil => exact absurd rfl hne
    | cons a l => rfl
  simp [this]

theorem calculateOrderTotals_err (db : DB) (now : Int) (items : List CartItem)
    (couponCode : Option String) (e : PricingError)
    (hsub : computeSubtotal db items = .error e) (hne : items ≠ []) :
    calculateOrderTotals db now items couponCode = .error e := by
  unfold calculateOrderTotals
  rw [hsub]
  have : items.isEmpty = false := by
    cases items with
    | nil => exact absurd rfl hne
    | cons a l => rfl
  simp [this]

section ClaimC3

/-- Catalog product with a present but zero offer price; validation allows a
zero offer price, and `offerPrice || normalPrice` then charges the normal
price. -/
def c3Product : Product :=
  { id := "p0", normalPrice := 50, offerPrice := some 0, wholesalePrice := none,
    status := .ACTIVE }

def c3DB : DB :=
  { products := fun pid => if pid = "p0" then some c3Product else none
    stocks := fun _ => none
    coupons := []
    orders := []
    tracking := [] }

def c3Items : List CartItem := [{ productId := "p0", productVariantId := none, quantity := 1 }]

def c3Res : OrderTotals :=
  { subtotal := 50, discount := 0, shippingCost := 0, totalAmount := 50, coupon := none }

/-- Claim C3, counterexample: for a product whose offerPrice is present but
zero, the claim's unit-price rule (offerPrice if present else normalPrice)
predicts a subtotal of 0, but `calculateOrderTotals` charges the normal price
and returns subtotal 50: `product.offerPrice || product.normalPrice` treats a
zero offer price as absent. -/
theorem c3_counterexample :
    c3Product.offerPrice = some 0 ∧
    calculateOrderTotals c3DB 0 c3Items none = .ok c3Res ∧
    round2 (specUnitPrice c3Product * (1 : ℚ)) = 0 ∧
    c3Res.subtotal ≠ round2 (specUnitPrice c3Product * (1 : ℚ)) := by
  have hsum : cartSum c3DB c3Items = 50 := by
    simp [cartSum, c3Items, lineValue, c3DB, c3Product, unitPrice]
  have hspec : round2 (specUnitPrice c3Product * (1 : ℚ)) = 0 := by
    have h0 : specUnitPrice c3Product * (1 : ℚ) = 0 := by
      simp [specUnitPrice, c3Product]
    rw [h0, round2_zero]
  refine ⟨rfl, ?_, hspec, ?_⟩
  · rw [calculateOrderTotals_ok c3DB 0 c3Items none (by decide) (by decide),
      round2_zero, hsum]
    have hd : (rawDiscount c3DB.coupons 0 none 50).1 = 0 := rfl
    have hc : (rawDiscount c3DB.coupons 0 none 50).2 = none := rfl
    rw [hd, hc, round2_zero]
    have h50 : (50 : ℚ) - 0 + 0 = 50 := by norm_num
    rw [h50]
    have hr50 : round2 (50 : ℚ) = 50 := by
      unfold round2
      rw [rat_floor_eq]
      norm_num
    rw [hr50]
    rfl
  · rw [hspec]
    norm_num [c3Res]

/-- Claim C3, amended: for every non-empty cart whose lines all pass the
availability checks, the pricing engine returns subtotal equal to the rounded
sum over lines of unitPrice times quantity, where unitPrice is the product's
offerPrice if present and non-zero, else its normalPrice; shippingCost 0;
discount as resolved from the coupon store; and totalAmount equal to the
rounded value of subtotal minus discount plus shippingCost. -/
theorem c3_subtotal_amended (db : DB) (now : Int) (items : List CartItem)
    (couponCode : Option String)
    (hne : items ≠ [])
    (hok : ∀ i ∈ items, exceptIsOk (lineAmount db i) = true) :
    calculateOrderTotals db now items couponCode =
      .ok { subtotal := round2 (cartSum db items)
            discount := round2 (rawDiscount db.coupons now couponCode (cartSum db items)).1
            shippingCost := 0
            totalAmount :=
              round2 (cartSum db items -
                (rawDiscount db.coupons now couponCode (cartSum db items)).1 + 0)
            coupon := (rawDiscount db.coupons now couponCode (cartSum db items)).2 } ∧
    ∀ i ∈ items, ∀ p, db.products i.productId = some p →
      lineValue db i =
        (match p.offerPrice with
         | some v => if v = 0 then p.normalPrice else v
         | none => p.normalPrice) * (i.quantity : ℚ) := by
  constructor
  · rw [calculateOrderTotals_ok db now items couponCode hne hok, round2_zero]
  · intro i _ p hp
    simp [lineValue, hp, unitPrice]

/-- Scenario A fixture: offer price 100, variant stock 5. -/
def aProduct : Product :=
  { id := "P1", normalPrice := 120, offerPrice := some 100, wholesalePrice := none,
    status := .ACTIVE }

def aDB : DB :=
  { products := fun pid => if pid = "P1" then some aProduct else none
    stocks := fun v => if v = "V1" then some 5 else none
    coupons := []
    orders := []
    tracking := [] }

def aItems : List CartItem := [{ productId := "P1", productVariantId := some "V1", quantity := 2 }]

theorem c3_witness :
    calculateOrderTotals aDB 0 aItems none =
      .ok { subtotal := round2 (cartSum aDB aItems)
            discount := round2 (rawDiscount aDB.coupons 0 none (cartSum aDB aItems)).1
            shippingCost := 0
            totalAmount :=
              round2 (cartSum aDB aItems -
                (rawDiscount aDB.coupons 0 none (cartSum aDB aItems)).1 + 0)
            coupon := (rawDiscount aDB.coupons 0 none (cartSum aDB aItems)).2 } :=
  (c3_subtotal_amended aDB 0 aItems none (by decide) (by decide)).1

end ClaimC3

section ClaimC4

/-- A live percentage coupon whose maxDiscount is present but zero; the code's
`coupon.maxDiscount && discount > coupon.maxDiscount` treats a zero cap as
absent. -/
def c4Coupon : Coupon :=
  { id := "cz", code := "ZCAP", isActive := true, validFrom := 0, validUntil := 100,
    discountType := .PERCENTAGE, discountValue := 10, minOrderAmount := none,
    maxDiscount := some 0, usageLimit := none, usedCount := 0 }

def c4DB : DB := { aDB with coupons := [c4Coupon] }

def c4Res : OrderTotals :=
  { subtotal := 200, discount := 20, shippingCost := 0, totalAmount := 180,
    coupon := some c4Coupon }

/-- Claim C4, counterexample: for a resolved percentage coupon whose
maxDiscount is set to 0 on a subtotal of 200, the claim's cap rule predicts a
discount of 0 (capped at the set maxDiscount), but the engine returns 20: the
cap is skipped because a zero maxDiscount is falsy. -/
theorem c4_counterexample :
    c4Coupon.maxDiscount = some 0 ∧
    resolveCoupon c4DB.coupons 0 "ZCAP" = some c4Coupon ∧
    calculateOrderTotals c4DB 0 aItems (some "ZCAP") = .ok c4Res ∧
    round2 (specCouponDiscount c4Coupon (cartSum c4DB aItems)) = 0 ∧
    c4Res.discount ≠ round2 (specCouponDiscount c4Coupon (cartSum c4DB aItems)) := by
  have hsum : cartSum c4DB aItems = 200 := by
    simp [cartSum, aItems, lineValue, c4DB, aDB, aProduct, unitPrice]
    norm_num
  have hdisc : couponDiscount c4Coupon (200 : ℚ) = 20 := by
    unfold couponDiscount
    norm_num [c4Coupon]
  have hspec : round2 (specCouponDiscount c4Coupon (cartSum c4DB aItems)) = 0 := by
    rw [hsum]
    have h0 : specCouponDiscount c4Coupon (200 : ℚ) = 0 := by
      unfold specCouponDiscount
      norm_num [c4Coupon]
    rw [h0, round2_zero]
  refine ⟨rfl, by decide, ?_, hspec, ?_⟩
  · rw [calculateOrderTotals_ok c4DB 0 aItems (some "ZCAP") (by decide) (by decide),
      round2_zero, hsum]
    have hrd : rawDiscount c4DB.coupons 0 (some "ZCAP") 200 =
        (couponDiscount c4Coupon 200, some c4Coupon) := by
      simp only [rawDiscount]
      rw [show resolveCoupon c4DB.coupons 0 "ZCAP" = some c4Coupon from by decide,
        if_neg (by decide : ¬("ZCAP" = ""))]
    rw [hrd, hdisc]
    have hr20 : round2 (20 : ℚ) = 20 := by
      unfold round2
      rw [rat_floor_eq]
      norm_num
    have h180 : (200 : ℚ) - 20 + 0 = 180 := by norm_num
    have hr180 : round2 (180 : ℚ) = 180 := by
      unfold round2
      rw [rat_floor_eq]
      norm_num
    have hr200 : round2 (200 : ℚ) = 200 := by
      unfold round2
      rw [rat_floor_eq]
      norm_num
    rw [hr20, h180, hr180, hr200]
    rfl
  · rw [hspec]
    norm_num [c4Res]

/-- Claim C4, amended: for every quote with a resolved coupon, the discount is
subtotal times value over 100 for a PERCENTAGE coupon, capped at maxDiscount
only when maxDiscount is set and non-zero, and the flat value for a FIXED
coupon; below the minOrderAmount threshold the coupon is silently ignored
(discount 0) and the quote still succeeds. -/
theorem c4_discount_amended (db : DB) (now : Int) (items : List CartItem)
    (code : String) (c : Coupon)
    (hcode : code ≠ "")
    (hres : resolveCoupon db.coupons now code = some c)
    (hne : items ≠ [])
    (hok : ∀ i ∈ items, exceptIsOk (lineAmount db i) = true) :
    calculateOrderTotals db now items (some code) =
      .ok { subtotal := round2 (cartSum db items)
            discount := round2 (couponDiscount c (cartSum db items))
            shippingCost := 0
            totalAmount :=
              round2 (cartSum db items - couponDiscount c (cartSum db items) + 0)
            coupon := some c } ∧
    couponDiscount c (cartSum db items) =
      (if c.minOrderAmount.getD 0 ≤ cartSum db items then
        match c.discountType with
        | .PERCENTAGE =>
          match c.maxDiscount with
          | some m =>
            if m ≠ 0 ∧ m < cartSum db items * c.discountValue / 100 then m
            else cartSum db items * c.discountValue / 100
          | none => cartSum db items * c.discountValue / 100
        | .FIXED => c.discountValue
      else 0) ∧
    (cartSum db items < c.minOrderAmount.getD 0 →
      couponDiscount c (cartSum db items) = 0) := by
  have hrd : rawDiscount db.coupons now (some code) (cartSum db items) =
      (couponDiscount c (cartSum db items), some c) := by
    simp only [rawDiscount]
    rw [if_neg hcode, hres]
  refine ⟨?_, rfl, ?_⟩
  · rw [calculateOrderTotals_ok db now items (some code) hne hok, round2_zero, hrd]
  · intro h
    unfold couponDiscount
    rw [if_neg (not_le.mpr h)]

/-- Scenario B fixture: coupon SAVE10, PERCENTAGE 10, minOrderAmount 0. -/
def bCoupon : Coupon :=
  { id := "c10", code := "SAVE10", isActive := true, validFrom := 0, validUntil := 100,
    discountType := .PERCENTAGE, discountValue := 10, minOrderAmount := some 0,
    maxDiscount := none, usageLimit := none, usedCount := 0 }

def bDB : DB := { aDB with coupons := [bCoupon] }

theorem c4_witness :
    calculateOrderTotals bDB 0 aItems (some "SAVE10") =
      .ok { subtotal := round2 (cartSum bDB aItems)
            discount := round2 (couponDiscount bCoupon (cartSum bDB aItems))
            shippingCost := 0
            totalAmount :=
              round2 (cartSum bDB aItems - couponDiscount bCoupon (cartSum bDB aItems) + 0)
            coupon := some bCoupon } :=
  (c4_discount_amended bDB 0 aItems "SAVE10" bCoupon (by decide) (by decide)
    (by decide) (by decide)).1

end ClaimC4

section ClaimC5

/-- Claim C5: the pricing engine fails with ProductNotFound when a line's
product is absent, with ProductUnavailable when the product's status is not
ACTIVE, and with InsufficientStock when a line's variant has stock below the
requested quantity (the first failing line, left to right, determines the
error); and any pricing failure aborts verify-and-create and the COD creation
path before any persistence, leaving the database untouched with no order row
created. -/
theorem c5_pricing_failures :
    (∀ (db : DB) (now : Int) (pre : List CartItem) (item : CartItem)
        (rest : List CartItem) (code : Option String),
      (∀ i ∈ pre, exceptIsOk (lineAmount db i) = true) →
      item.productId ≠ "" → item.quantity ≠ 0 →
      db.products item.productId = none →
      calculateOrderTotals db now (pre ++ item :: rest) code =
        .error (.productNotFound item.productId)) ∧
    (∀ (db : DB) (now : Int) (pre : List CartItem) (item : CartItem)
        (rest : List CartItem) (code : Option String) (p : Product),
      (∀ i ∈ pre, exceptIsOk (lineAmount db i) = true) →
      item.productId ≠ "" → item.quantity ≠ 0 →
      db.products item.productId = some p → p.status ≠ .ACTIVE →
      calculateOrderTotals db now (pre ++ item :: rest) code =
        .error (.productUnavailable item.productId)) ∧
    (∀ (db : DB) (now : Int) (pre : List CartItem) (item : CartItem)
        (rest : List CartItem) (code : Option String) (p : Product)
        (vid : String) (stock : Int),
      (∀ i ∈ pre, exceptIsOk (lineAmount db i) = true) →
      item.productId ≠ "" → item.quantity ≠ 0 →
      db.products item.productId = some p → p.status = .ACTIVE →
      item.productVariantId = some vid → db.stocks vid = some stock →
      stock < (item.quantity : Int) →
      calculateOrderTotals db now (pre ++ item :: rest) code =
        .error (.insufficientStock vid stock item.quantity)) ∧
    (∀ (db : DB) (now : Int) (e : PricingError)
        (hmacHex : String → String → String) (secret newId onum : String)
        (upOk : Bool) (pd : PaymentData) (payload : OrderPayload),
      calculateOrderTotals db now pd.orderData.orderItems pd.orderData.couponCode =
        .error e →
      calculateOrderTotals db now payload.orderItems payload.couponCode = .error e →
      (verifyAndCreateOrder hmacHex secret db now newId onum upOk pd).1 = db ∧
      exceptIsOk (verifyAndCreateOrder hmacHex secret db now newId onum upOk pd).2 = false ∧
      (createCODOrder db now newId onum upOk payload).1 = db ∧
      exceptIsOk (createCODOrder db now newId onum upOk payload).2 = false) := by
  refine ⟨?_, ?_, ?_, ?_⟩
  · intro db now pre item rest code hpre hpid hqty hp
    have hline : lineAmount db item = .error (.productNotFound item.productId) := by
      unfold lineAmount
      rw [if_neg (by simp [hpid, hqty])]
      simp only [hp]
    exact calculateOrderTotals_err db now (pre ++ item :: rest) code _
      (computeSubtotal_err db item _ hline pre rest hpre) (by simp)
  · intro db now pre item rest code p hpre hpid hqty hp hs
    have hline : lineAmount db item = .error (.productUnavailable item.productId) := by
      unfold lineAmount
      rw [if_neg (by simp [hpid, hqty])]
      simp only [hp]
      rw [if_pos hs]
    exact calculateOrderTotals_err db now (pre ++ item :: rest) code _
      (computeSubtotal_err db item _ hline pre rest hpre) (by simp)
  · intro db now pre item rest code p vid stock hpre hpid hqty hp hs hv hst hlt
    have hline : lineAmount db item =
        .error (.insufficientStock vid stock item.quantity) := by
      unfold lineAmount
      rw [if_neg (by simp [hpid, hqty])]
      simp only [hp]
      rw [if_neg (by simp [hs])]
      simp only [hv, hst]
      rw [if_pos hlt]
    exact calculateOrderTotals_err db now (pre ++ item :: rest) code _
      (computeSubtotal_err db item _ hline pre rest hpre) (by simp)
  · intro db now e hmacHex secret newId onum upOk pd payload hpd hpay
    refine ⟨?_, ?_, ?_, ?_⟩
    · unfold verifyAndCreateOrder
      cases hb : verifyPayment hmacHex secret pd.razorpayOrderId pd.razorpayPaymentId
          pd.razorpaySignature <;>
        simp [hb, hpd]
    · unfold verifyAndCreateOrder
      cases hb : verifyPayment hmacHex secret pd.razorpayOrderId pd.razorpayPaymentId
          pd.razorpaySignature <;>
        simp [hb, hpd, exceptIsOk]
    · unfold createCODOrder
      split
      · rfl
      · simp [hpay]
    · unfold createCODOrder
      split
      · simp [exceptIsOk]
      · simp [hpay, exceptIsOk]

/-- Scenario C fixture: variant stock 1, requested quantity 2. -/
def cDB : DB :=
  { aDB with stocks := fun v => if v = "V1" then some 1 else none }

def cItem : CartItem := { productId := "P1", productVariantId := some "V1", quantity := 2 }

def c5Payload : OrderPayload :=
  { userId := "U1"
    shipping := { name := "N", email := "E", phone := "P", address := "A",
                  city := "C", state := "S", pincode := "PC" }
    orderItems := [cItem]
    couponCode := none
    customImages := []
    clientTotals := none }

def c5PD : PaymentData :=
  { razorpayOrderId := "RO1", razorpayPaymentId := "RP1",
    razorpaySignature := "sig", orderData := c5Payload }

def wHmac : String → String → String := fun secret msg => secret ++ ":" ++ msg

theorem c5_witness :
    calculateOrderTotals cDB 0 [cItem] none = .error (.insufficientStock "V1" 1 2) ∧
    (verifyAndCreateOrder wHmac "k" cDB 0 "oC" "NC" true c5PD).1 = cDB ∧
    exceptIsOk (verifyAndCreateOrder wHmac "k" cDB 0 "oC" "NC" true c5PD).2 = false ∧
    (createCODOrder cDB 0 "oC" "NC" true c5Payload).1 = cDB ∧
    exceptIsOk (createCODOrder cDB 0 "oC" "NC" true c5Payload).2 = false := by
  have h3 := c5_pricing_failures.2.2.1 cDB 0 [] cItem [] none aProduct "V1" 1
    (by intro i hi; cases hi) (by decide) (by decide) (by decide) (by decide)
    (by decide) (by decide) (by decide)
  have h4 := c5_pricing_failures.2.2.2 cDB 0 (.insufficientStock "V1" 1 2)
    wHmac "k" "oC" "NC" true c5PD c5Payload h3 h3
  exact ⟨h3, h4.1, h4.2.1, h4.2.2.1, h4.2.2.2⟩

end ClaimC5

section ClaimC6

theorem ctEqList_eq_true_iff : ∀ as bs : List Char, ctEqList as bs = true ↔ as = bs
  | [], [] => by simp [ctEqList]
  | [], _ :: _ => by simp [ctEqList]
  | _ :: _, [] => by simp [ctEqList]
  | a :: as, b :: bs => by
    rw [ctEqList, Bool.and_eq_true, ctEqList_eq_true_iff as bs]
    constructor
    · rintro ⟨h1, h2⟩
      rw [h1, beq_iff_eq.mp h2]
    · intro h
      injection h with h1 h2
      exact ⟨h2, beq_iff_eq.mpr h1⟩

theorem ctEq_eq_true_iff (s t : String) : ctEq s t = true ↔ s = t := by
  unfold ctEq
  rw [ctEqList_eq_true_iff]
  constructor
  · intro h
    cases s
    cases t
    exact congrArg String.mk (by simpa using h)
  · intro h
    rw [h]

theorem beq_eq_ctEq (x y : String) : (x == y) = ctEq x y := by
  by_cases h : x = y
  · subst h
    have h1 : ctEq x x = true := (ctEq_eq_true_iff x x).mpr rfl
    rw [h1]
    exact beq_self_eq_true x
  · have h1 : (x == y) = false := beq_eq_false_iff_ne.mpr h
    have h2 : ctEq x y = false := by
      cases hb : ctEq x y
      · rfl
      · exact absurd ((ctEq_eq_true_iff x y).mp hb) h
    rw [h1, h2]

/-- Claim C6: the synchronous gateway's verify returns true exactly when the
supplied signature equals the hex HMAC of `orderId|paymentId` under the shared
secret, the comparison being extensionally a constant-time byte comparison;
and an invalid signature makes verify-and-create fail with
PaymentVerificationFailed leaving the database untouched, so no order row is
created. -/
theorem c6_signature_verification :
    (∀ (hmacHex : String → String → String) (secret orderId paymentId signature : String),
      (verifyPayment hmacHex secret orderId paymentId signature = true ↔
        signature = hmacHex secret (orderId ++ "|" ++ paymentId)) ∧
      verifyPayment hmacHex secret orderId paymentId signature =
        ctEq (hmacHex secret (orderId ++ "|" ++ paymentId)) signature) ∧
    (∀ (hmacHex : String → String → String) (secret : String) (db : DB) (now : Int)
        (newId onum : String) (upOk : Bool) (pd : PaymentData),
      verifyPayment hmacHex secret pd.razorpayOrderId pd.razorpayPaymentId
          pd.razorpaySignature = false →
      verifyAndCreateOrder hmacHex secret db now newId onum upOk pd =
        (db, .error .paymentVerificationFailed)) := by
  constructor
  · intro hmacHex secret orderId paymentId signature
    constructor
    · unfold verifyPayment
      rw [beq_iff_eq]
      exact eq_comm
    · exact beq_eq_ctEq _ _
  · intro hmacHex secret db now newId onum upOk pd h
    unfold verifyAndCreateOrder
    rw [h]
    rfl

def c6PD : PaymentData :=
  { razorpayOrderId := "RO9", razorpayPaymentId := "RP9",
    razorpaySignature := "forged", orderData := c5Payload }

theorem c6_witness :
    verifyAndCreateOrder wHmac "k" aDB 0 "o6" "N6" true c6PD =
      (aDB, .error .paymentVerificationFailed) :=
  c6_signature_verification.2 wHmac "k" aDB 0 "o6" "N6" true c6PD (by decide)

end ClaimC6

section ClaimC2

/-- Claim C2: when the signature is valid (and the upload step has nothing to
fail on), the persisted order's monetary fields equal the totals recomputed by
the pricing engine from the current catalog and coupon state, and the whole
operation is independent of the client-echoed quote: two payloads differing
only in the round-tripped clientTotals produce identical results. -/
theorem c2_server_recomputed_totals
    (hmacHex : String → String → String) (secret : String) (db : DB) (now : Int)
    (newId onum : String) (upOk : Bool) (pd : PaymentData)
    (hsig : verifyPayment hmacHex secret pd.razorpayOrderId pd.razorpayPaymentId
      pd.razorpaySignature = true)
    (himg : pd.orderData.customImages = [])
    (hcalc : exceptIsOk (calculateOrderTotals db now pd.orderData.orderItems
      pd.orderData.couponCode) = true) :
    exceptIsOk (verifyAndCreateOrder hmacHex secret db now newId onum upOk pd).2 = true ∧
    (∀ o, (verifyAndCreateOrder hmacHex secret db now newId onum upOk pd).2 = .ok o →
      ∀ t, calculateOrderTotals db now pd.orderData.orderItems
          pd.orderData.couponCode = .ok t →
        o.subtotal = t.subtotal ∧ o.discount = t.discount ∧
        o.shippingCost = t.shippingCost ∧ o.totalAmount = t.totalAmount) ∧
    (∀ ct, verifyAndCreateOrder hmacHex secret db now newId onum upOk
        { pd with orderData := { pd.orderData with clientTotals := ct } } =
      verifyAndCreateOrder hmacHex secret db now newId onum upOk pd) := by
  cases hc : calculateOrderTotals db now pd.orderData.orderItems pd.orderData.couponCode with
  | error e =>
    rw [hc] at hcalc
    simp [exceptIsOk] at hcalc
  | ok t0 =>
    refine ⟨?_, ?_, ?_⟩
    · unfold verifyAndCreateOrder
      simp [hsig, hc, himg, exceptIsOk]
    · intro o ho t ht
      injection ht with ht'
      subst ht'
      unfold verifyAndCreateOrder at ho
      simp [hsig, hc, himg] at ho
      rw [← ho]
      exact ⟨rfl, rfl, rfl, rfl⟩
    · intro ct
      cases pd with
      | mk roid rpid rsig od =>
        cases od with
        | mk u s oi cc ci ct0 => rfl

def c2Payload : OrderPayload :=
  { userId := "U1"
    shipping := { name := "N", email := "E", phone := "P", address := "A",
                  city := "C", state := "S", pincode := "PC" }
    orderItems := [{ productId := "P1", productVariantId := some "V1", quantity := 2 }]
    couponCode := none
    customImages := []
    clientTotals := some { subtotal := 999, discount := 0, shippingCost := 0,
                           totalAmount := 999, coupon := none } }

def c2PD : PaymentData :=
  { razorpayOrderId := "RO1", razorpayPaymentId := "RP1",
    razorpaySignature := "k:RO1|RP1", orderData := c2Payload }

theorem c2_witness :
    verifyAndCreateOrder wHmac "k" aDB 0 "o2" "N2" true
        { c2PD with orderData := { c2PD.orderData with clientTotals := none } } =
      verifyAndCreateOrder wHmac "k" aDB 0 "o2" "N2" true c2PD ∧
    exceptIsOk (verifyAndCreateOrder wHmac "k" aDB 0 "o2" "N2" true c2PD).2 = true := by
  have h := c2_server_recomputed_totals wHmac "k" aDB 0 "o2" "N2" true c2PD
    (by decide) rfl (by decide)
  exact ⟨h.2.2 none, h.1⟩

end ClaimC2

section ClaimC7C8

theorem incrementStocks_apply :
    ∀ (items : List OrderItem) (stocks : String → Option Int) (vid : String),
      incrementStocks stocks items vid =
        (stocks vid).map (fun s => s + restoreQty items vid)
  | [], stocks, vid => by
    cases h : stocks vid <;> simp [incrementStocks, restoreQty, h]
  | item :: rest, stocks, vid => by
    have hstep : incrementStocks stocks (item :: rest) =
        incrementStocks (restoreStep stocks item) rest := rfl
    rw [hstep, incrementStocks_apply rest (restoreStep stocks item) vid]
    cases hv : item.productVariantId with
    | none =>
      have hq : restoreQty (item :: rest) vid = restoreQty rest vid := by
        simp [restoreQty, List.filter_cons, hv]
      rw [hq]
      simp [restoreStep, hv]
    | some w =>
      by_cases hw : w = vid
      · subst hw
        have hq : restoreQty (item :: rest) w =
            (item.quantity : Int) + restoreQty rest w := by
          simp [restoreQty, List.filter_cons, hv]
        rw [hq]
        have hs : restoreStep stocks item w = (stocks w).map (fun s => s + (item.quantity : Int)) := by
          simp [restoreStep, hv, updateStock]
        rw [hs]
        cases h : stocks w <;> simp [h]
        omega
      · have hq : restoreQty (item :: rest) vid = restoreQty rest vid := by
          simp [restoreQty, List.filter_cons, hv, hw]
        rw [hq]
        have hs : restoreStep stocks item vid = stocks vid := by
          simp [restoreStep, hv, updateStock]
          intro h
          exact absurd h.symm hw
        rw [hs]

/-- Claim C7: with the order loaded, process-refund raises one of the
RefundNotEligible errors, makes no gateway call and leaves the database
unchanged exactly when a precondition fails (paymentStatus not PAID, status
already REFUNDED, or no stored original transaction id); when the
preconditions hold it issues exactly one gateway refund call keyed by the
stored transaction id, and any error it may still raise is not a
RefundNotEligible one. -/
theorem c7_refund_preconditions (db : DB) (orderId : String) (rd : RefundData)
    (gw : RefundResponse) (order : Order)
    (hfind : db.orders.find? (fun o => o.id == orderId) = some order) :
    ((order.paymentStatus ≠ .PAID ∨ order.status = .REFUNDED ∨
        order.phonepeTransactionId = none) →
      (processRefund db orderId rd gw).1 = db ∧
      (processRefund db orderId rd gw).2.1 = [] ∧
      (match (processRefund db orderId rd gw).2.2 with
       | .error e => isRefundNotEligible e
       | .ok _ => false) = true) ∧
    (order.paymentStatus = .PAID → order.status ≠ .REFUNDED →
      ∀ txn, order.phonepeTransactionId = some txn →
        (processRefund db orderId rd gw).2.1 =
          [{ originalTransactionId := txn
             amount := refundedAmount rd order
             idempotencyKey := "REFUND_" ++ order.id }] ∧
        (match (processRefund db orderId rd gw).2.2 with
         | .error e => isRefundNotEligible e
         | .ok _ => false) = false) := by
  constructor
  · intro hfail
    by_cases h1 : order.paymentStatus = .PAID
    · by_cases h2 : order.status = .REFUNDED
      · unfold processRefund
        simp only [hfind]
        rw [if_neg (by simp [h1]), if_pos h2]
        simp [isRefundNotEligible]
      · have h3 : order.phonepeTransactionId = none := by
          rcases hfail with h | h | h
          · exact absurd h1 h
          · exact absurd h h2
          · exact h
        unfold processRefund
        simp only [hfind]
        rw [if_neg (by simp [h1]), if_neg h2]
        simp only [h3]
        simp [isRefundNotEligible]
    · unfold processRefund
      simp only [hfind]
      rw [if_pos h1]
      simp [isRefundNotEligible]
  · intro h1 h2 txn h3
    unfold processRefund
    simp only [hfind]
    rw [if_neg (by simp [h1]), if_neg h2]
    simp only [h3]
    cases hg : gw.success <;> simp [isRefundNotEligible]

/-- Scenario E fixture: an order with paymentStatus PENDING. -/
def c7Order : Order :=
  { id := "o7", orderNumber := "ORD-7", userId := "U1"
    shipping := { name := "N", email := "E", phone := "P", address := "A",
                  city := "C", state := "S", pincode := "PC" }
    status := .PENDING, paymentStatus := .PENDING, paymentMethod := "ONLINE"
    subtotal := 200, discount := 0, shippingCost := 0, totalAmount := 200
    couponId := none
    items := [{ productId := "P1", productVariantId := some "V1", quantity := 2, price := 100 }]
    razorpayOrderId := none, razorpayPaymentId := none, razorpaySignature := none
    phonepeMerchantTransactionId := some "MT7", phonepeTransactionId := none
    phonepeResponseCode := none, phonepeResponseMessage := none
    adminNotes := none, trackingNumber := none, carrier := none, trackingUrl := none
    estimatedDelivery := none, shippedAt := none, deliveredAt := none }

def c7DB : DB :=
  { products := fun _ => none
    stocks := fun v => if v = "V1" then some 3 else none
    coupons := []
    orders := [c7Order]
    tracking := [] }

def c7RD : RefundData := { refundAmount := none, reason := "damaged", adminNotes := none }

def c7GW : RefundResponse := { success := true, merchantRefundId := "RF7", message := "" }

theorem c7_witness :
    (processRefund c7DB "o7" c7RD c7GW).1 = c7DB ∧
    (processRefund c7DB "o7" c7RD c7GW).2.1 = [] ∧
    (match (processRefund c7DB "o7" c7RD c7GW).2.2 with
     | .error e => isRefundNotEligible e
     | .ok _ => false) = true :=
  (c7_refund_preconditions c7DB "o7" c7RD c7GW c7Order (by decide)).1
    (Or.inl (by decide))

/-- Claim C8: a successful refund marks the order REFUNDED / REFUNDED,
restores every item's variant stock (each variant gains the total quantity its
items carried, which is the item's quantity when a single item carries that
variant), and leaves every coupon's usedCount untouched. -/
theorem c8_refund_effects (db : DB) (orderId : String) (rd : RefundData)
    (gw : RefundResponse) (order : Order) (txn : String)
    (hfind : db.orders.find? (fun o => o.id == orderId) = some order)
    (hpaid : order.paymentStatus = .PAID)
    (hnr : order.status ≠ .REFUNDED)
    (htxn : order.phonepeTransactionId = some txn)
    (hgw : gw.success = true) :
    exceptIsOk (processRefund db orderId rd gw).2.2 = true ∧
    (∀ o' ∈ (processRefund db orderId rd gw).1.orders, o'.id = order.id →
      o'.status = .REFUNDED ∧ o'.paymentStatus = .REFUNDED) ∧
    (processRefund db orderId rd gw).1.coupons = db.coupons ∧
    (∀ vid, (processRefund db orderId rd gw).1.stocks vid =
      (db.stocks vid).map (fun s => s + restoreQty order.items vid)) ∧
    (∀ item ∈ order.items, ∀ vid, item.productVariantId = some vid →
      order.items.filter (fun j => j.productVariantId == some vid) = [item] →
      (processRefund db orderId rd gw).1.stocks vid =
        (db.stocks vid).map (fun s => s + (item.quantity : Int))) := by
  have heval : processRefund db orderId rd gw =
      ({ db with
          orders := updateOrderIn db.orders order.id (fun o =>
            { o with
                status := .REFUNDED
                paymentStatus := .REFUNDED
                adminNotes :=
                  match rd.adminNotes with
                  | some n => if n = "" then o.adminNotes else some n
                  | none => o.adminNotes })
          tracking := db.tracking ++
            [{ orderId := order.id
               status := .REFUNDED
               description :=
                 "Order refunded. Amount: " ++ toString (refundedAmount rd order) ++
                   ". Reason: " ++ rd.reason ++ ". Refund ID: " ++ gw.merchantRefundId
               location := "System" }]
          stocks := incrementStocks db.stocks order.items },
       [{ originalTransactionId := txn
          amount := refundedAmount rd order
          idempotencyKey := "REFUND_" ++ order.id }],
       .ok gw.merchantRefundId) := by
    unfold processRefund
    simp only [hfind]
    rw [if_neg (by simp [hpaid]), if_neg hnr]
    simp only [htxn]
    rw [if_pos hgw]
  rw [heval]
  refine ⟨rfl, ?_, rfl, ?_, ?_⟩
  · intro o' ho' hid
    rcases List.mem_map.mp ho' with ⟨o, _, ho⟩
    by_cases h : o.id = order.id
    · rw [if_pos h] at ho
      rw [← ho]
      exact ⟨rfl, rfl⟩
    · rw [if_neg h] at ho
      rw [← ho] at hid
      exact absurd hid h
  · intro vid
    exact incrementStocks_apply order.items db.stocks vid
  · intro item hitem vid hvid hfilter
    have h := incrementStocks_apply order.items db.stocks vid
    rw [restoreQty, hfilter] at h
    simpa using h

def c8Order : Order :=
  { c7Order with
      id := "o8"
      orderNumber := "ORD-8"
      status := .CONFIRMED
      paymentStatus := .PAID
      phonepeMerchantTransactionId := some "MT8"
      phonepeTransactionId := some "T8" }

def c8DB : DB :=
  { products := fun _ => none
    stocks := fun v => if v = "V1" then some 3 else none
    coupons := [bCoupon]
    orders := [c8Order]
    tracking := [] }

theorem c8_witness :
    exceptIsOk (processRefund c8DB "o8" c7RD c7GW).2.2 = true ∧
    (processRefund c8DB "o8" c7RD c7GW).1.coupons = c8DB.coupons ∧
    (processRefund c8DB "o8" c7RD c7GW).1.stocks "V1" =
      (c8DB.stocks "V1").map (fun s => s + restoreQty c8Order.items "V1") := by
  have h := c8_refund_effects c8DB "o8" c7RD c7GW c8Order "T8" (by decide)
    (by decide) (by decide) (by decide) (by decide)
  exact ⟨h.1, h.2.2.1, h.2.2.2.1 "V1"⟩

end ClaimC7C8

section ClaimC9

/-- Position of each status along the forward chain of the spec's state
machine (terminal states last). -/
def statusRank : OrderStatus → Nat
  | .PENDING => 0
  | .CONFIRMED => 1
  | .PROCESSING => 2
  | .SHIPPED => 3
  | .DELIVERED => 4
  | .CANCELLED => 5
  | .REFUNDED => 6

def c9Order : Order :=
  { c7Order with
      id := "o9"
      orderNumber := "ORD-9"
      status := .DELIVERED
      paymentStatus := .PAID }

def c9DeliveredEntry : TrackingEntry :=
  { orderId := "o9", status := .DELIVERED,
    description := getStatusDescription .DELIVERED, location := "C, S" }

def c9DB : DB :=
  { products := fun _ => none
    stocks := fun _ => none
    coupons := []
    orders := [c9Order]
    tracking := [c9DeliveredEntry] }

/-- Claim C9, counterexample: the admin update-status operation accepts any of
the seven status values with no transition check, so it moves a DELIVERED
(terminal) order backward to PENDING and appends that backward entry to the
tracking history; update-tracking likewise forces a DELIVERED order back to
SHIPPED. -/
theorem c9_counterexample :
    c9Order.status = .DELIVERED ∧
    (updateOrderStatus c9DB 5 "o9" "PENDING" none).2 =
      .ok { c9Order with status := .PENDING } ∧
    (updateOrderStatus c9DB 5 "o9" "PENDING" none).1.tracking =
      [c9DeliveredEntry,
       { orderId := "o9", status := .PENDING,
         description := getStatusDescription .PENDING, location := "C, S" }] ∧
    statusRank .PENDING < statusRank .DELIVERED ∧
    (updateTrackingInfo c9DB 5 "o9" "TN" "DHL" "u" none).2 =
      .ok { c9Order with
            trackingNumber := some "TN"
            carrier := some "DHL"
            trackingUrl := some "u"
            estimatedDelivery := none
            status := .SHIPPED
            shippedAt := some 5 } := by
  decide

/-- Claim C9, amended: the status machinery is not forward-only.  The only
validation update-status performs is that the requested status is one of the
seven values; it then applies that status whatever the current one is
(backward moves and moves out of terminal states included), stamping
shippedAt or deliveredAt on first entry; update-tracking unconditionally sets
SHIPPED and always appends a SHIPPED history entry.  TrackingHistory records
every applied change, with no monotonicity guarantee. -/
theorem c9_status_update_amended (db : DB) (now : Int) (orderId status : String)
    (notes : Option String) (order : Order) (st : OrderStatus)
    (tn carrier trackingUrl : String) (ed : Option Int) :
    (db.orders.find? (fun o => o.id == orderId) = some order →
      parseStatus status = some st →
      (updateOrderStatus db now orderId status notes).2 =
        .ok { order with
              status := st
              adminNotes :=
                match notes with
                | some n => if n = "" then order.adminNotes else some n
                | none => order.adminNotes
              shippedAt :=
                if st = .SHIPPED ∧ order.status ≠ .SHIPPED then some now
                else order.shippedAt
              deliveredAt :=
                if st = .DELIVERED ∧ order.status ≠ .DELIVERED then some now
                else order.deliveredAt } ∧
      (updateOrderStatus db now orderId status notes).1.tracking =
        (if st ≠ order.status then
          db.tracking ++
            [{ orderId := order.id
               status := st
               description := getStatusDescription st
               location := order.shipping.city ++ ", " ++ order.shipping.state }]
        else db.tracking)) ∧
    (db.orders.find? (fun o => o.id == orderId) = some order →
      (updateTrackingInfo db now orderId tn carrier trackingUrl ed).2 =
        .ok { order with
              trackingNumber := some tn
              carrier := some carrier
              trackingUrl := some trackingUrl
              estimatedDelivery := ed
              status := .SHIPPED
              shippedAt := some now } ∧
      (updateTrackingInfo db now orderId tn carrier trackingUrl ed).1.tracking =
        db.tracking ++
          [{ orderId := order.id
             status := .SHIPPED
             description := "Order shipped via " ++ carrier ++ ". Tracking number: " ++ tn
             location := order.shipping.city ++ ", " ++ order.shipping.state }]) := by
  constructor
  · intro hfind hparse
    unfold updateOrderStatus
    simp only [hfind, hparse]
    exact ⟨by trivial, by trivial⟩
  · intro hfind
    unfold updateTrackingInfo
    simp only [hfind]
    exact ⟨by trivial, by trivial⟩

theorem c9_witness :
    (updateOrderStatus c9DB 5 "o9" "PROCESSING" none).2 =
      .ok { c9Order with status := .PROCESSING } ∧
    (updateTrackingInfo c9DB 5 "o9" "TN2" "BlueDart" "u2" none).2 =
      .ok { c9Order with
            trackingNumber := some "TN2"
            carrier := some "BlueDart"
            trackingUrl := some "u2"
            estimatedDelivery := none
            status := .SHIPPED
            shippedAt := some 5 } := by
  have h := c9_status_update_amended c9DB 5 "o9" "PROCESSING" none c9Order
    .PROCESSING "TN2" "BlueDart" "u2" none
  exact ⟨(h.1 (by decide) (by decide)).1, (h.2 (by decide)).1⟩

end ClaimC9

section ClaimC10

/-- Claim C10: refunds are only reachable for orders finalised through the
asynchronous gateway.  Verify-and-create persists only the synchronous
gateway's correlation ids (phonepeTransactionId and
phonepeMerchantTransactionId are both none) even though the order is PAID;
process-refund insists on a stored phonepeTransactionId and, for any order
without one, raises the missing-original-transaction-id error with no gateway
call and no state change (and still fails, with the earlier precondition
errors, when the order is not PAID); and the callback handler can only ever
find orders carrying a phonepeMerchantTransactionId. -/
theorem c10_razorpay_orders_unrefundable :
    (∀ (hmacHex : String → String → String) (secret : String) (db : DB) (now : Int)
        (newId onum : String) (upOk : Bool) (pd : PaymentData) (o : Order),
      (verifyAndCreateOrder hmacHex secret db now newId onum upOk pd).2 = .ok o →
      o.phonepeTransactionId = none ∧ o.phonepeMerchantTransactionId = none ∧
      o.razorpayOrderId = some pd.razorpayOrderId ∧
      o.razorpayPaymentId = some pd.razorpayPaymentId ∧
      o.paymentStatus = .PAID) ∧
    (∀ (db : DB) (orderId : String) (rd : RefundData) (gw : RefundResponse)
        (order : Order),
      db.orders.find? (fun o => o.id == orderId) = some order →
      order.phonepeTransactionId = none →
      (processRefund db orderId rd gw).1 = db ∧
      (processRefund db orderId rd gw).2.1 = [] ∧
      exceptIsOk (processRefund db orderId rd gw).2.2 = false ∧
      (order.paymentStatus = .PAID → order.status ≠ .REFUNDED →
        (processRefund db orderId rd gw).2.2 = .error .missingOriginalTransactionId)) ∧
    (∀ (db : DB) (resp : StatusResponse) (cb : CallbackData) (order : Order),
      db.orders.find? (fun o =>
        o.phonepeMerchantTransactionId == some cb.merchantTransactionId) = some order →
      order.phonepeMerchantTransactionId = some cb.merchantTransactionId) := by
  refine ⟨?_, ?_, ?_⟩
  · intro hmacHex secret db now newId onum upOk pd o ho
    unfold verifyAndCreateOrder at ho
    split at ho
    · exact absurd ho (by simp)
    · split at ho
      · exact absurd ho (by simp)
      · split at ho
        · exact absurd ho (by simp)
        · simp only [Except.ok.injEq] at ho
          rw [← ho]
          exact ⟨rfl, rfl, rfl, rfl, rfl⟩
  · intro db orderId rd gw order hfind hphone
    by_cases h1 : order.paymentStatus = .PAID
    · by_cases h2 : order.status = .REFUNDED
      · have heval : processRefund db orderId rd gw = (db, [], .error .alreadyRefunded) := by
          unfold processRefund
          simp only [hfind]
          rw [if_neg (by simp [h1]), if_pos h2]
        rw [heval]
        exact ⟨rfl, rfl, rfl, fun _ hc => absurd h2 hc⟩
      · have heval : processRefund db orderId rd gw =
            (db, [], .error .missingOriginalTransactionId) := by
          unfold processRefund
          simp only [hfind]
          rw [if_neg (by simp [h1]), if_neg h2]
          simp only [hphone]
        rw [heval]
        exact ⟨rfl, rfl, rfl, fun _ _ => rfl⟩
    · have heval : processRefund db orderId rd gw = (db, [], .error .notPaid) := by
        unfold processRefund
        simp only [hfind]
        rw [if_pos h1]
      rw [heval]
      exact ⟨rfl, rfl, rfl, fun hp => absurd hp h1⟩
  · intro db _resp cb order hfind
    have h := List.find?_some hfind
    simpa using h

def c10Order : Order :=
  { c8Order with
      id := "oX"
      phonepeTransactionId := none
      phonepeMerchantTransactionId := none
      razorpayOrderId := some "RO1"
      razorpayPaymentId := some "RP1"
      razorpaySignature := some "k:RO1|RP1" }

def c10DB : DB := { c8DB with orders := [c10Order] }

theorem c10_witness :
    (processRefund c10DB "oX" c7RD c7GW).1 = c10DB ∧
    (processRefund c10DB "oX" c7RD c7GW).2.1 = [] ∧
    exceptIsOk (processRefund c10DB "oX" c7RD c7GW).2.2 = false ∧
    (processRefund c10DB "oX" c7RD c7GW).2.2 = .error .missingOriginalTransactionId := by
  have h := c10_razorpay_orders_unrefundable.2.1 c10DB "oX" c7RD c7GW c10Order
    (by decide) (by decide)
  exact ⟨h.1, h.2.1, h.2.2.1, h.2.2.2 (by decide) (by decide)⟩

end ClaimC10

section ClaimC1

def c1Coupon : Coupon :=
  { id := "c1", code := "SAVE10", isActive := true, validFrom := 0, validUntil := 100,
    discountType := .PERCENTAGE, discountValue := 10, minOrderAmount := none,
    maxDiscount := none, usageLimit := some 100, usedCount := 1 }

/-- An order that has already been finalised by a first successful callback:
paymentStatus PAID, status CONFIRMED, coupon consumed once, and the variant
stock already decremented from 5 to 3 for its quantity-2 item. -/
def c1Order : Order :=
  { c7Order with
      id := "o1"
      orderNumber := "ORD-1"
      status := .CONFIRMED
      paymentStatus := .PAID
      couponId := some "c1"
      phonepeMerchantTransactionId := some "MT1"
      phonepeTransactionId := some "T1"
      phonepeResponseCode := some "PAYMENT_SUCCESS" }

def c1DB : DB :=
  { products := fun _ => none
    stocks := fun v => if v = "V1" then some 3 else none
    coupons := [c1Coupon]
    orders := [c1Order]
    tracking := [] }

def c1Status : StatusResponse :=
  { success := true, code := "PAYMENT_SUCCESS", message := "Success" }

def c1CB : CallbackData :=
  { merchantTransactionId := "MT1", transactionId := "T1",
    code := "PAYMENT_SUCCESS", message := "Success" }

/-- Claim C1: delivering a PAYMENT_SUCCESS callback again for an order whose
paymentStatus is already PAID decrements the item's variant stock a second
time (3 to 1 here) and increments the coupon's usedCount a second time (1 to
2): the success branch of handlePhonePeCallback performs its stock and coupon
mutations without any check of the order's current paymentStatus, so the
claimed guard does not exist and the handler is not idempotent. -/
theorem c1_duplicate_callback_side_effects :
    c1DB.orders.find? (fun o => o.phonepeMerchantTransactionId == some "MT1") =
      some c1Order ∧
    c1Order.paymentStatus = .PAID ∧
    c1DB.stocks "V1" = some 3 ∧
    c1Coupon.usedCount = 1 ∧
    exceptIsOk (handlePhonePeCallback c1DB c1Status c1CB).2 = true ∧
    (handlePhonePeCallback c1DB c1Status c1CB).1.stocks "V1" = some 1 ∧
    (handlePhonePeCallback c1DB c1Status c1CB).1.coupons =
      [{ c1Coupon with usedCount := 2 }] := by
  decide

end ClaimC1

end Garments
